import Mathlib

/-
Shallow embedding of the fhirside-chat WebSocket chat gateway.

Sources embedded:
  - src/src/websocket/connection_manager.py  (ConnectionManager)
  - src/src/app.py                           (ChatService.process, ws_chat, get_telemetry)
  - src/src/models/websocket_messages.py     (the pydantic envelope models)
  - src/src/telemetry/event_emitter.py       (TelemetryEmitter)
  - src/src/telemetry/jaeger_client.py       (query_traces_by_session and helpers)

Modelling conventions:
  - Python values produced by json.loads are modelled by the inductive `Json`
    (json.loads itself is the standard library; an inbound text frame is
    represented by its parse outcome, Except String Json, where the error
    carries the JSONDecodeError text).
  - Python exceptions are explicit: a fallible Python call is a Lean function
    into Except PyExn; a try/except block is a match on that Except.
  - Python dicts are insertion-ordered association lists with unique keys;
    assignment d[k] = v replaces the first binding in place or appends.
  - External effects (websocket.send_text, pydantic model_dump_json,
    datetime.now, the agent, the Jaeger HTTP round trip) are parameters, so
    theorems quantify over every behaviour of those collaborators, including
    the always-raising ones.
-/

namespace FhirsideChat

/-- Values produced by Python json.loads (numbers restricted to integers;
no claim depends on float payloads). -/
inductive Json where
  | null
  | bool (b : Bool)
  | num (n : Int)
  | str (s : String)
  | arr (elems : List Json)
  | obj (fields : List (String × Json))

/-- Lookup in a JSON object as json.loads builds the dict: a duplicated key
keeps the last value, so we look the reversed field list up. -/
def jsonGet (fields : List (String × Json)) (key : String) : Option Json :=
  fields.reverse.lookup key

/-- The Python exceptions the embedded code can raise or catch. -/
inductive PyExn where
  | jsonDecodeError (msg : String)
  | validationError (msg : String)
  | typeError (msg : String)
  | attributeError (msg : String)
  | runtimeError (msg : String)
deriving DecidableEq

/-- Python str(e) on an exception, as interpolated into error envelopes. -/
def PyExn.text : PyExn → String
  | .jsonDecodeError msg => msg
  | .validationError msg => msg
  | .typeError msg => msg
  | .attributeError msg => msg
  | .runtimeError msg => msg

/-- The clause `except (json.JSONDecodeError, ValidationError)` of ws_chat
(src/src/app.py line 122): exactly these two classes are caught there. -/
def PyExn.isCaughtByWsLoop : PyExn → Bool
  | .jsonDecodeError _ => true
  | .validationError _ => true
  | _ => false

/-- The tagged-union wire envelopes of src/src/models/websocket_messages.py,
one constructor per pydantic class. -/
inductive WsMessage where
  | userMessage (session_id content : String)
  | assistantMessage (session_id content : String) (streaming : Bool)
  | toolCallEvent (session_id tool_call_id tool_name : String)
      (arguments : List (String × Json)) (timestamp : Int)
  | toolResultEvent (session_id tool_call_id tool_name result : String)
      (duration_ms : Int) (timestamp : Int)
  | openAIEvent (event_type session_id model : String)
      (prompt_tokens completion_tokens total_tokens duration_ms : Option Int)
      (timestamp : Int)
  | errorMessage (session_id error : String)
  | connectionStatus (status session_id : String)

/-- Whether an envelope is one of the OpenAIEvent variants
(type openai_call or openai_response). -/
def WsMessage.isOpenAIEvent : WsMessage → Bool
  | .openAIEvent _ _ _ _ _ _ _ _ => true
  | _ => false

/-- Python dict assignment d[k] = v: replace the binding in place when the key
is present (keeping its position), append otherwise. -/
def dictInsert {H : Type} : List (String × H) → String → H → List (String × H)
  | [], key, v => [(key, v)]
  | (k, w) :: rest, key, v =>
      if k = key then (key, v) :: rest else (k, w) :: dictInsert rest key v

/-- The keys of an association list are pairwise distinct (the invariant a
Python dict maintains by construction). -/
def keysNodup {H : Type} (l : List (String × H)) : Prop :=
  (l.map Prod.fst).Nodup

/-- How many entries of the list carry the given key. -/
def keyCount {H : Type} (l : List (String × H)) (key : String) : Nat :=
  (l.map Prod.fst).count key

/-
Connection registry: src/src/websocket/connection_manager.py.
H is the type of websocket handles (an opaque transport object in Python).
-/

/-- The ConnectionManager of connection_manager.py: a dict from session id to
the live websocket handle. -/
structure ConnectionManager (H : Type) where
  active_connections : List (String × H)

/-- What one send_message call did, beyond its logging: either it found no
handle and warned, or it reached the serialize/write sequence, whose failure
is caught and logged (connection_manager.py lines 24 to 39). -/
inductive SendAction (H : Type) where
  | warnedNoConnection
  | sent (websocket : H) (payload : String)
  | serializeFailed (e : PyExn)
  | writeFailed (websocket : H) (payload : String) (e : PyExn)

/-- The handle a send_message call attempted to write to, if any. -/
def SendAction.target {H : Type} : SendAction H → Option H
  | .sent websocket _ => some websocket
  | .writeFailed websocket _ _ => some websocket
  | _ => none

namespace ConnectionManager

/-- connect (lines 14 to 17): accept the handshake (an effect on the handle,
invisible here) and record session_id -> websocket, overwriting any prior
entry for that id. -/
def connect {H : Type} (m : ConnectionManager H) (websocket : H) (session_id : String) :
    ConnectionManager H :=
  ⟨dictInsert m.active_connections session_id websocket⟩

/-- disconnect (lines 19 to 22): delete the entry if present, no-op otherwise. -/
def disconnect {H : Type} (m : ConnectionManager H) (session_id : String) :
    ConnectionManager H :=
  if (m.active_connections.lookup session_id).isSome then
    ⟨m.active_connections.filter (fun p => p.1 ≠ session_id)⟩
  else m

/-- send_message (lines 24 to 39). model_dump_json is pydantic serialization
and send_text the transport write, both taken as arbitrary fallible
collaborators; the try/except around them is the match. The Except result
models whether the call raises to ITS caller: the code never does, which
theorem C4 states. -/
def send_message {H : Type} (m : ConnectionManager H)
    (model_dump_json : WsMessage → Except PyExn String)
    (send_text : H → String → Except PyExn Unit)
    (session_id : String) (message : WsMessage) : Except PyExn (SendAction H) :=
  match m.active_connections.lookup session_id with
  | none => .ok .warnedNoConnection
  | some websocket =>
    match model_dump_json message with
    | .error e => .ok (.serializeFailed e)
    | .ok json_message =>
      match send_text websocket json_message with
      | .ok _ => .ok (.sent websocket json_message)
      | .error e => .ok (.writeFailed websocket json_message e)

end ConnectionManager

/-
Chat sessions: the ChatService class of src/src/app.py (lines 42 to 66).
-/

/-- ChatService: the in-memory dict from session id to transcript
(self underscore sessions in the source). -/
structure ChatService where
  sessions : List (String × List String)

/-- What one ChatService.process call produced: the service with the updated
transcript, the prompt passed to agent.run, and the textual output. -/
structure ProcessResult where
  service : ChatService
  prompt : String
  output : String

/-- The transcript stored for a session id, empty when none is stored yet
(setdefault semantics). -/
def ChatService.history (cs : ChatService) (session_id : String) : List String :=
  (cs.sessions.lookup session_id).getD []

/-- ChatService.process (app.py lines 48 to 66). agent_run stands for the
scoped chat_agent acquisition plus result = await agent.run(prompt) plus
result.output: an external collaborator that may raise. The except Exception
branch folds any raise into the literal output "Error: " ++ str(e). The
tracer span around the body has no effect on the data. -/
def ChatService.process (cs : ChatService)
    (agent_run : String → Except PyExn String)
    (session_id message : String) : ProcessResult :=
  let history := cs.history session_id ++ ["User: " ++ message]
  let prompt := String.intercalate "\n" history ++ "\nAssistant:"
  let output :=
    match agent_run prompt with
    | .ok out => out
    | .error e => "Error: " ++ e.text
  let history := history ++ ["Assistant: " ++ output]
  ⟨⟨dictInsert cs.sessions session_id history⟩, prompt, output⟩

/-
Inbound frame decoding: json.loads plus UserMessage(**message_data)
(app.py lines 102 to 106, models/websocket_messages.py lines 7 to 10).
-/

/-- The validated UserMessage pydantic model. -/
structure UserMessage where
  type : String
  session_id : String
  content : String
deriving DecidableEq

/-- Pydantic validation of one required str field (lax mode: only a JSON
string validates; v2 does not coerce numbers to str). -/
def validateStr (fields : List (String × Json)) (key : String) : Except PyExn String :=
  match jsonGet fields key with
  | some (.str s) => .ok s
  | some _ => .error (.validationError (key ++ ": Input should be a valid string"))
  | none => .error (.validationError (key ++ ": Field required"))

/-- Validation of the field type : Literal of message. -/
def validateTypeLiteral (fields : List (String × Json)) : Except PyExn String :=
  match jsonGet fields "type" with
  | some (.str s) =>
      if s = "message" then .ok s
      else .error (.validationError "type: Input should be message")
  | some _ => .error (.validationError "type: Input should be message")
  | none => .error (.validationError "type: Field required")

/-- UserMessage(**fields) once fields is a dict: pydantic validates the three
declared fields (extra keys are ignored under the default config) and raises
ValidationError on any mismatch. -/
def UserMessage.validate (fields : List (String × Json)) : Except PyExn UserMessage :=
  match validateTypeLiteral fields, validateStr fields "session_id",
      validateStr fields "content" with
  | .ok t, .ok s, .ok c => .ok ⟨t, s, c⟩
  | .error e, _, _ => .error e
  | .ok _, .error e, _ => .error e
  | .ok _, .ok _, .error e => .error e

/-- The decode pipeline of one received frame: json.loads (whose outcome the
parameter carries), then UserMessage(**message_data). Unpacking a non-dict
with ** raises TypeError before pydantic runs. -/
def receiveDecode (parsed : Except String Json) : Except PyExn UserMessage :=
  match parsed with
  | .error msg => .error (.jsonDecodeError msg)
  | .ok (.obj fields) => UserMessage.validate fields
  | .ok _ => .error (.typeError "argument after ** must be a mapping")

/-
The ws_chat endpoint (app.py lines 95 to 131): connection setup and one
iteration of the read loop.
-/

/-- The session id of a new websocket connection:
websocket.query_params.get("session_id", "default") (app.py line 97). -/
def ws_chat_session_id (query_param : Option String) : String :=
  query_param.getD "default"

/-- The module-level mutable state the loop reads and writes: the shared
ConnectionManager and the shared ChatService (app.py lines 69 to 70). -/
structure ServerState (H : Type) where
  connection_manager : ConnectionManager H
  chat_service : ChatService

/-- One send_message call the loop issued: its routing key, the envelope,
and what the registry did with it. -/
structure SendRecord (H : Type) where
  routing_key : String
  envelope : WsMessage
  action : SendAction H

/-- One iteration of the ws_chat while-loop body after receive_text
returned a frame whose json.loads outcome is parsed (app.py lines 102 to
128). The Except result models an exception escaping the loop body: only
json.JSONDecodeError and ValidationError are caught, so a TypeError from
unpacking a non-dict propagates. On success it returns the updated state and
the send_message calls made, in order; the loop then reads the next frame. -/
def ws_handle {H : Type}
    (model_dump_json : WsMessage → Except PyExn String)
    (send_text : H → String → Except PyExn Unit)
    (agent_run : String → Except PyExn String)
    (session_id : String)
    (st : ServerState H)
    (decoded : Except PyExn UserMessage) :
    Except PyExn (ServerState H × List (SendRecord H)) :=
  match decoded with
  | .ok user_message =>
    if user_message.type = "message" then
      let r := st.chat_service.process agent_run user_message.session_id user_message.content
      let response := WsMessage.assistantMessage user_message.session_id r.output false
      match st.connection_manager.send_message model_dump_json send_text
          user_message.session_id response with
      | .ok action =>
        .ok (⟨st.connection_manager, r.service⟩,
          [⟨user_message.session_id, response, action⟩])
      | .error e => .error e
    else
      .ok (st, [])
  | .error e =>
    if e.isCaughtByWsLoop then
      let error_response :=
        WsMessage.errorMessage session_id ("Invalid message format: " ++ e.text)
      match st.connection_manager.send_message model_dump_json send_text
          session_id error_response with
      | .ok action => .ok (st, [⟨session_id, error_response, action⟩])
      | .error e2 => .error e2
    else
      .error e

/-- One iteration of the ws_chat loop body, assembled: decode the received
frame, then dispatch. -/
def ws_step {H : Type}
    (model_dump_json : WsMessage → Except PyExn String)
    (send_text : H → String → Except PyExn Unit)
    (agent_run : String → Except PyExn String)
    (session_id : String)
    (st : ServerState H)
    (parsed : Except String Json) :
    Except PyExn (ServerState H × List (SendRecord H)) :=
  ws_handle model_dump_json send_text agent_run session_id st (receiveDecode parsed)

/-- The session_id string carried by the frame, when the frame parses to an
object holding one. This is the id the loop routes a valid message by. -/
def payloadSessionId (parsed : Except String Json) : Option String :=
  match parsed with
  | .ok (.obj fields) =>
    match jsonGet fields "session_id" with
    | some (.str s) => some s
    | _ => none
  | _ => none

/-
TelemetryEmitter: src/src/telemetry/event_emitter.py. The class wraps a
ConnectionManager; here the wrapped registry's send_message is the
send_message parameter (an arbitrary fallible collaborator, so theorems
also cover a registry mocked to raise, as the spec's test property asks),
and datetime.now() is the fallible now parameter.
-/

/-- What one emit helper did: delivered the event to send_message, or caught
the exception and logged a warning. -/
inductive EmitResult where
  | emitted
  | loggedWarning (e : PyExn)
deriving DecidableEq

/-- The try/except wrapper every emit helper shares: any exception raised by
event construction or delivery becomes a logged warning and a normal return. -/
def emitCaught (attempt : Except PyExn Unit) : Except PyExn EmitResult :=
  match attempt with
  | .ok _ => .ok .emitted
  | .error e => .ok (.loggedWarning e)

namespace TelemetryEmitter

/-- emit_tool_call (event_emitter.py lines 15 to 36). -/
def emit_tool_call
    (send_message : String → WsMessage → Except PyExn Unit)
    (now : Except PyExn Int)
    (session_id tool_call_id tool_name : String)
    (arguments : List (String × Json)) : Except PyExn EmitResult :=
  emitCaught (do
    let timestamp ← now
    let event := WsMessage.toolCallEvent session_id tool_call_id tool_name
      arguments timestamp
    send_message session_id event)

/-- emit_tool_result (event_emitter.py lines 38 to 61). -/
def emit_tool_result
    (send_message : String → WsMessage → Except PyExn Unit)
    (now : Except PyExn Int)
    (session_id tool_call_id tool_name result : String)
    (duration_ms : Int) : Except PyExn EmitResult :=
  emitCaught (do
    let timestamp ← now
    let event := WsMessage.toolResultEvent session_id tool_call_id tool_name
      result duration_ms timestamp
    send_message session_id event)

/-- OpenAIEvent type field: Literal of openai_call or openai_response;
constructing the event with another tag raises ValidationError inside the
try of emit_openai_call. -/
def validateOpenAIType (event_type : String) : Except PyExn String :=
  if event_type = "openai_call" ∨ event_type = "openai_response" then .ok event_type
  else .error (.validationError "type: Input should be openai_call or openai_response")

/-- emit_openai_call (event_emitter.py lines 63 to 89). -/
def emit_openai_call
    (send_message : String → WsMessage → Except PyExn Unit)
    (now : Except PyExn Int)
    (session_id event_type model : String)
    (prompt_tokens completion_tokens total_tokens duration_ms : Option Int) :
    Except PyExn EmitResult :=
  emitCaught (do
    let t ← validateOpenAIType event_type
    let timestamp ← now
    let event := WsMessage.openAIEvent t session_id model prompt_tokens
      completion_tokens total_tokens duration_ms timestamp
    send_message session_id event)

end TelemetryEmitter

/-
Jaeger trace query: src/src/telemetry/jaeger_client.py, and the
GET /telemetry/{session_id} endpoint of app.py (lines 164 to 202).
-/

/-- Span attributes (src/src/models/telemetry.py, SpanAttributes): typed
optional fields populated by alias or name, extra tag keys ignored. -/
structure SpanAttributes where
  openai_prompt : Option String := none
  openai_completion : Option String := none
  openai_model : Option String := none
  openai_token_count : Option Int := none
  mcp_query : Option String := none
  mcp_resource_type : Option String := none
  mcp_response : Option String := none
  session_id : Option String := none

/-- Span data (src/src/models/telemetry.py, SpanData). -/
structure SpanData where
  span_id : String
  trace_id : String
  parent_span_id : Option String := none
  operation_name : String
  start_time : Int
  end_time : Int
  duration : Int
  attributes : SpanAttributes
  status : String
  error_message : Option String := none

/-- Pydantic validation of an Optional str value (None passes, str passes,
anything else raises). -/
def validOptStr (v : Json) (key : String) : Except PyExn (Option String) :=
  match v with
  | .null => .ok none
  | .str s => .ok (some s)
  | _ => .error (.validationError (key ++ ": Input should be a valid string"))

/-- Pydantic lax validation of an Optional int value (None and int pass, a
numeric string is coerced, anything else raises). -/
def validOptInt (v : Json) (key : String) : Except PyExn (Option Int) :=
  match v with
  | .null => .ok none
  | .num n => .ok (some n)
  | .str s =>
    match s.toInt? with
    | some n => .ok (some n)
    | none => .error (.validationError (key ++ ": Input should be a valid integer"))
  | _ => .error (.validationError (key ++ ": Input should be a valid integer"))

/-- Field lookup honouring populate_by_name: the alias first, then the
field name. -/
def aliasGet (d : List (String × Json)) (alias_key name_key : String) : Option Json :=
  match jsonGet d alias_key with
  | some v => some v
  | none => jsonGet d name_key

/-- An optional str field of SpanAttributes: absent gives the None default. -/
def optStrField (d : List (String × Json)) (alias_key name_key : String) :
    Except PyExn (Option String) :=
  match aliasGet d alias_key name_key with
  | none => .ok none
  | some v => validOptStr v name_key

/-- SpanAttributes(**attributes_dict): validate each declared field from the
tag dict; extra keys are ignored. -/
def SpanAttributes.ofDict (d : List (String × Json)) : Except PyExn SpanAttributes := do
  let openai_prompt ← optStrField d "openai.prompt" "openai_prompt"
  let openai_completion ← optStrField d "openai.completion" "openai_completion"
  let openai_model ← optStrField d "openai.model" "openai_model"
  let openai_token_count ←
    match aliasGet d "openai.token_count" "openai_token_count" with
    | none => pure none
    | some v => validOptInt v "openai_token_count"
  let mcp_query ← optStrField d "mcp.query" "mcp_query"
  let mcp_resource_type ← optStrField d "mcp.resource_type" "mcp_resource_type"
  let mcp_response ← optStrField d "mcp.response" "mcp_response"
  let session_id ← optStrField d "session_id" "session_id"
  pure ⟨openai_prompt, openai_completion, openai_model, openai_token_count,
    mcp_query, mcp_resource_type, mcp_response, session_id⟩

/-- Python value.get(key, default) on a JSON value: raises AttributeError
unless the value is a dict. -/
def dictGet (j : Json) (key : String) (default : Json) : Except PyExn Json :=
  match j with
  | .obj fields => .ok ((jsonGet fields key).getD default)
  | _ => .error (.attributeError "object has no attribute get")

/-- Iterating a JSON value as a Python list. A non-list value either raises
TypeError at the for-statement or (str and dict values) raises on the first
element use; either way the enclosing query's except returns before any span
is produced, so the error constructor is faithful at that observation. -/
def asArr (j : Json) : Except PyExn (List Json) :=
  match j with
  | .arr elems => .ok elems
  | _ => .error (.typeError "object is not iterable")

/-- A str field read with .get(key, default) then used as a str: any
non-string value fails pydantic validation of SpanData. -/
def getStrD (j : Json) (key : String) (default : String) : Except PyExn String := do
  let v ← dictGet j key (.str default)
  match v with
  | .str s => pure s
  | _ => .error (.validationError (key ++ ": Input should be a valid string"))

/-- An int field read with .get(key, default) then used in arithmetic: a
non-int raises (TypeError at the addition or ValidationError in SpanData). -/
def getIntD (j : Json) (key : String) (default : Int) : Except PyExn Int := do
  let v ← dictGet j key (.num default)
  match v with
  | .num n => pure n
  | _ => .error (.typeError "unsupported operand type")

/-- The scan for the first CHILD_OF reference
(jaeger_client.py lines 142 to 147). -/
def findParent : List Json → Except PyExn (Option Json)
  | [] => .ok none
  | ref :: rest => do
    let rt ← dictGet ref "refType" .null
    match rt with
    | .str s =>
      if s = "CHILD_OF" then do
        let p ← dictGet ref "spanID" .null
        pure (some p)
      else findParent rest
    | _ => findParent rest

/-- attributes_dict = mapping tag key to tag.get("value", "")
(jaeger_client.py line 150); a tag that is not a dict with a str key raises. -/
def buildTagDict : List Json → Except PyExn (List (String × Json))
  | [] => .ok []
  | tag :: rest => do
    let key ←
      match tag with
      | .obj fields =>
        match jsonGet fields "key" with
        | some (.str k) => pure k
        | some _ => .error (.typeError "keywords must be strings")
        | none => .error (.runtimeError "KeyError: key")
      | _ => .error (.typeError "object is not subscriptable")
    let value ← dictGet tag "value" (.str "")
    let rest2 ← buildTagDict rest
    pure ((key, value) :: rest2)

/-- next(tag for tag in tags if tag key equals k), over tags already known to
be dicts with str keys. -/
def findTag (tags : List Json) (k : String) : Option Json :=
  tags.find? (fun tag =>
    match tag with
    | .obj fields =>
      match jsonGet fields "key" with
      | some (.str s) => s = k
      | _ => false
    | _ => false)

/-- The status and error_message computation of _convert_jaeger_span
(jaeger_client.py lines 154 to 162). -/
def spanStatus (tags : List Json) : Except PyExn (String × Option String) :=
  match findTag tags "otel.status_code" with
  | some status_tag => do
    let v ← dictGet status_tag "value" .null
    match v with
    | .str s =>
      if s = "ERROR" then
        match findTag tags "error.message" with
        | some error_tag => do
          let ev ← dictGet error_tag "value" .null
          let em ← validOptStr ev "error_message"
          pure ("ERROR", em)
        | none => pure ("ERROR", none)
      else pure ("OK", none)
    | _ => pure ("OK", none)
  | none => pure ("OK", none)

/-- Convert one Jaeger span object into SpanData
(jaeger_client.py lines 126 to 175), raising on any malformed field; the
caller catches and skips the span. -/
def convert_jaeger_span (jaeger_span : Json) : Except PyExn SpanData := do
  let span_id ← getStrD jaeger_span "spanID" ""
  let trace_id ← getStrD jaeger_span "traceID" ""
  let operation_name ← getStrD jaeger_span "operationName" ""
  let start_time ← getIntD jaeger_span "startTime" 0
  let duration ← getIntD jaeger_span "duration" 0
  let end_time := start_time + duration
  let references ← dictGet jaeger_span "references" (.arr [])
  let refs ← asArr references
  let parent_raw ← findParent refs
  let parent_span_id ←
    match parent_raw with
    | none => pure none
    | some p => validOptStr p "parent_span_id"
  let tags_json ← dictGet jaeger_span "tags" (.arr [])
  let tags ← asArr tags_json
  let attributes_dict ← buildTagDict tags
  let attributes ← SpanAttributes.ofDict attributes_dict
  let se ← spanStatus tags
  pure ⟨span_id, trace_id, parent_span_id, operation_name, start_time,
    end_time, duration, attributes, se.1, se.2⟩

/-- Whether a span is an OpenAI, MCP or agent operation
(jaeger_client.py lines 100 to 123), given its operationName. -/
def relevantOperationName (operation_name : String) : Bool :=
  operation_name.startsWith "openai." ||
  operation_name.startsWith "mcp." ||
  operation_name.startsWith "chat " ||
  operation_name.startsWith "agent " ||
  (operation_name.splitOn "OpenAI").length > 1 ||
  (operation_name.splitOn "MCP").length > 1 ||
  (operation_name.splitOn "Aidbox").length > 1 ||
  (operation_name.toLower.splitOn "gpt").length > 1 ||
  operation_name = "chat_session" ||
  operation_name = "running tool" ||
  operation_name = "running tools"

/-- is_relevant_span: jaeger_span.get("operationName", "") then the string
tests; a non-dict span or non-str name raises (AttributeError), which the
enclosing query catches. -/
def is_relevant_span (jaeger_span : Json) : Except PyExn Bool := do
  let v ← dictGet jaeger_span "operationName" (.str "")
  match v with
  | .str operation_name => pure (relevantOperationName operation_name)
  | _ => .error (.attributeError "object has no attribute startswith")

/-- The inner span loop of parse_jaeger_response: keep relevant spans whose
conversion succeeds; a failed conversion is logged and the span skipped
(the try/except at jaeger_client.py lines 83 to 95). -/
def parseSpans : List Json → Except PyExn (List SpanData)
  | [] => .ok []
  | s :: rest => do
    let relevant ← is_relevant_span s
    if relevant then
      match convert_jaeger_span s with
      | .ok span_data => do
        let tail ← parseSpans rest
        pure (span_data :: tail)
      | .error _ => parseSpans rest
    else
      parseSpans rest

/-- The outer trace loop of parse_jaeger_response. -/
def parseTraces : List Json → Except PyExn (List SpanData)
  | [] => .ok []
  | tr :: rest => do
    let spans_json ← dictGet tr "spans" (.arr [])
    let span_list ← asArr spans_json
    let here ← parseSpans span_list
    let there ← parseTraces rest
    pure (here ++ there)

/-- parse_jaeger_response (jaeger_client.py lines 67 to 97). -/
def parse_jaeger_response (jaeger_data : Json) (session_id : String) :
    Except PyExn (List SpanData) := do
  let data ← dictGet jaeger_data "data" (.arr [])
  let jaeger_traces ← asArr data
  parseTraces jaeger_traces

/-- The outcome of the HTTP round trip to Jaeger inside
query_traces_by_session: the three exception classes its except clauses
distinguish, or a 2xx response whose parsed JSON body is carried. -/
inductive JaegerBackend where
  | timeoutException
  | httpError (msg : String)
  | otherFailure (msg : String)
  | ok2xx (body : Json)

/-- query_traces_by_session (jaeger_client.py lines 18 to 64): every failure
path logs and returns the empty list; only a successful round trip is
parsed, and a parse exception falls into the generic except returning []. -/
def query_traces_by_session (backend : JaegerBackend) (session_id : String) :
    List SpanData :=
  match backend with
  | .timeoutException => []
  | .httpError _ => []
  | .otherFailure _ => []
  | .ok2xx jaeger_data =>
    match parse_jaeger_response jaeger_data session_id with
    | .ok spans => spans
    | .error _ => []

/-- Response model of GET /telemetry/{session_id}
(src/src/models/telemetry.py, TelemetryResponse). -/
structure TelemetryResponse where
  session_id : String
  spans : List SpanData
  trace_count : Nat

/-- An HTTP handler outcome: a response body or a raised HTTPException. -/
inductive HttpResult (α : Type) where
  | ok (value : α)
  | httpException (status_code : Nat) (detail : String)

/-- get_telemetry (app.py lines 164 to 202): the try block around the query
call and the trace_count computation; any raise maps to HTTPException 500.
query_result carries the awaited query_traces_by_session outcome, as an
Except so the handler's own 500 branch stays visible even though the query
function never raises. -/
def get_telemetry (query_result : Except PyExn (List SpanData))
    (session_id : String) : HttpResult TelemetryResponse :=
  match query_result with
  | .ok spans =>
    let trace_count := (spans.map (fun span => span.trace_id)).dedup.length
    .ok ⟨session_id, spans, trace_count⟩
  | .error _ => .httpException 500 "Failed to retrieve telemetry data"

/-
Concrete collaborators for the closed runs below: a serializer that always
yields a fixed payload, a transport write and an agent that succeed.
-/

/-- A model_dump_json stub that always serializes to a fixed payload. -/
def okDump : WsMessage → Except PyExn String := fun _ => .ok "serialized"

/-- A send_text stub that always succeeds, with Nat handles. -/
def okSend : Nat → String → Except PyExn Unit := fun _ _ => .ok ()

/-- An agent stub that always answers ack. -/
def okAgent : String → Except PyExn String := fun _ => .ok "ack"

/-- An agent stub whose run always raises. -/
def failAgent : String → Except PyExn String := fun _ => .error (.runtimeError "boom")

/-
Verified properties of the embedding.
-/

theorem lookup_dictInsert_self {H : Type} (l : List (String × H)) (key : String) (v : H) :
    (dictInsert l key v).lookup key = some v := by
  induction l with
  | nil => simp [dictInsert, List.lookup]
  | cons hd tl ih =>
    obtain ⟨k, w⟩ := hd
    by_cases hk : k = key
    · simp [dictInsert, hk, List.lookup]
    · have hbk : (key == k) = false := beq_eq_false_iff_ne.mpr (fun h => hk h.symm)
      simp [dictInsert, hk, List.lookup, hbk, ih]

theorem lookup_dictInsert_ne {H : Type} (l : List (String × H)) (key other : String) (v : H)
    (hne : other ≠ key) : (dictInsert l key v).lookup other = l.lookup other := by
  have hok : (other == key) = false := beq_eq_false_iff_ne.mpr hne
  induction l with
  | nil => simp [dictInsert, List.lookup, hok]
  | cons hd tl ih =>
    obtain ⟨k, w⟩ := hd
    by_cases hk : k = key
    · subst hk
      simp [dictInsert, List.lookup, hok]
    · by_cases ho : other = k
      · subst ho
        simp [dictInsert, hk, List.lookup]
      · have hok2 : (other == k) = false := beq_eq_false_iff_ne.mpr ho
        simp [dictInsert, hk, List.lookup, hok2, ih]

theorem exists_mem_dictInsert {H : Type} (l : List (String × H)) (key k : String) (v : H)
    (hmem : ∃ x, (k, x) ∈ dictInsert l key v) :
    (∃ x, (k, x) ∈ l) ∨ k = key := by
  induction l with
  | nil =>
    obtain ⟨x, hx⟩ := hmem
    simp [dictInsert] at hx
    exact Or.inr hx.1
  | cons hd tl ih =>
    obtain ⟨k', w⟩ := hd
    obtain ⟨x, hx⟩ := hmem
    by_cases hk : k' = key
    · subst hk
      simp [dictInsert] at hx
      rcases hx with ⟨h1, _⟩ | h
      · exact Or.inr h1
      · exact Or.inl ⟨x, List.mem_cons_of_mem _ h⟩
    · simp [dictInsert, hk] at hx
      rcases hx with ⟨h1, h2⟩ | h
      · exact Or.inl ⟨w, by simp [h1, h2]⟩
      · rcases ih ⟨x, h⟩ with ⟨y, hy⟩ | h'
        · exact Or.inl ⟨y, List.mem_cons_of_mem _ hy⟩
        · exact Or.inr h'

theorem keysNodup_dictInsert {H : Type} (l : List (String × H)) (key : String) (v : H)
    (hnd : keysNodup l) : keysNodup (dictInsert l key v) := by
  induction l with
  | nil => simp [dictInsert, keysNodup]
  | cons hd tl ih =>
    obtain ⟨k, w⟩ := hd
    rw [keysNodup, List.map_cons, List.nodup_cons] at hnd
    simp only [dictInsert]
    by_cases hk : k = key
    · rw [if_pos hk]
      rw [keysNodup, List.map_cons, List.nodup_cons]
      exact ⟨hk ▸ hnd.1, hnd.2⟩
    · rw [if_neg hk]
      rw [keysNodup, List.map_cons, List.nodup_cons]
      refine ⟨?_, ih hnd.2⟩
      intro hmem
      obtain ⟨⟨k2, x⟩, hx, hfst⟩ := List.mem_map.mp hmem
      simp at hfst
      rcases exists_mem_dictInsert tl key k2 v ⟨x, hx⟩ with ⟨y, hy⟩ | h
      · exact hnd.1 (hfst ▸ List.mem_map.mpr ⟨(k2, y), hy, rfl⟩)
      · exact hk (hfst ▸ h)

theorem keyCount_dictInsert_self {H : Type} (l : List (String × H)) (key : String) (v : H)
    (hnd : keysNodup l) : keyCount (dictInsert l key v) key = 1 := by
  induction l with
  | nil => simp [dictInsert, keyCount]
  | cons hd tl ih =>
    obtain ⟨k, w⟩ := hd
    rw [keysNodup, List.map_cons, List.nodup_cons] at hnd
    simp only [keyCount, dictInsert]
    by_cases hk : k = key
    · rw [if_pos hk]
      rw [List.map_cons, List.count_cons_self]
      rw [List.count_eq_zero.mpr (hk ▸ hnd.1)]
    · rw [if_neg hk]
      rw [List.map_cons, List.count_cons]
      have h1 : keyCount (dictInsert tl key v) key = 1 := ih hnd.2
      rw [keyCount] at h1
      rw [h1]
      simp [hk]

/-- send_message always returns (no exception escapes); its action warns
exactly when no handle is registered, and any attempted write targets the
handle the registry holds for the routing key. Shared workhorse lemma. -/
theorem send_message_spec {H : Type} (m : ConnectionManager H)
    (model_dump_json : WsMessage → Except PyExn String)
    (send_text : H → String → Except PyExn Unit)
    (session_id : String) (message : WsMessage) :
    ∃ act, m.send_message model_dump_json send_text session_id message = .ok act ∧
      (act = .warnedNoConnection ↔ m.active_connections.lookup session_id = none) ∧
      (∀ h, act.target = some h → m.active_connections.lookup session_id = some h) := by
  unfold ConnectionManager.send_message
  cases hl : m.active_connections.lookup session_id with
  | none =>
    exact ⟨.warnedNoConnection, rfl, by simp,
      fun h habs => by simp [SendAction.target] at habs⟩
  | some websocket =>
    cases hd : model_dump_json message with
    | error e =>
      exact ⟨.serializeFailed e, rfl, by simp,
        fun h habs => by simp [SendAction.target] at habs⟩
    | ok json_message =>
      cases hs : send_text websocket json_message with
      | ok u =>
        refine ⟨.sent websocket json_message, by simp [hs], by simp, ?_⟩
        intro h habs
        simp [SendAction.target] at habs
        rw [← habs]
      | error e =>
        refine ⟨.writeFailed websocket json_message e, by simp [hs], by simp, ?_⟩
        intro h habs
        simp [SendAction.target] at habs
        rw [← habs]

theorem validate_type_is_message (fields : List (String × Json)) (um : UserMessage)
    (h : UserMessage.validate fields = .ok um) : um.type = "message" := by
  unfold UserMessage.validate at h
  cases ht : validateTypeLiteral fields with
  | error e => simp [ht] at h
  | ok t =>
    cases hs : validateStr fields "session_id" with
    | error e => simp [ht, hs] at h
    | ok s =>
      cases hc : validateStr fields "content" with
      | error e => simp [ht, hs, hc] at h
      | ok c =>
        simp [ht, hs, hc] at h
        unfold validateTypeLiteral at ht
        cases hj : jsonGet fields "type" with
        | none => simp [hj] at ht
        | some v =>
          cases v with
          | str s2 =>
            simp [hj] at ht
            by_cases hm : s2 = "message"
            · simp [hm] at ht
              rw [← h]
              simp [ht.symm, hm]
            · simp [hm] at ht
          | null => simp [hj] at ht
          | bool b => simp [hj] at ht
          | num n => simp [hj] at ht
          | arr xs => simp [hj] at ht
          | obj fs => simp [hj] at ht

theorem validate_errors_caught (fields : List (String × Json)) (e : PyExn)
    (h : UserMessage.validate fields = .error e) : e.isCaughtByWsLoop = true := by
  have hval : ∀ (f : List (String × Json)) (k : String) (e' : PyExn),
      validateStr f k = .error e' → e'.isCaughtByWsLoop = true := by
    intro f k e' he
    unfold validateStr at he
    cases hj : jsonGet f k with
    | none => simp [hj] at he; simp [← he, PyExn.isCaughtByWsLoop]
    | some v =>
      cases v <;> simp [hj] at he <;> simp [← he, PyExn.isCaughtByWsLoop]
  have hlit : ∀ (e' : PyExn), validateTypeLiteral fields = .error e' →
      e'.isCaughtByWsLoop = true := by
    intro e' he
    unfold validateTypeLiteral at he
    cases hj : jsonGet fields "type" with
    | none => simp [hj] at he; simp [← he, PyExn.isCaughtByWsLoop]
    | some v =>
      cases v with
      | str s =>
        by_cases hm : s = "message"
        · simp [hj, hm] at he
        · simp [hj, hm] at he; simp [← he, PyExn.isCaughtByWsLoop]
      | null => simp [hj] at he; simp [← he, PyExn.isCaughtByWsLoop]
      | bool b => simp [hj] at he; simp [← he, PyExn.isCaughtByWsLoop]
      | num n => simp [hj] at he; simp [← he, PyExn.isCaughtByWsLoop]
      | arr xs => simp [hj] at he; simp [← he, PyExn.isCaughtByWsLoop]
      | obj fs => simp [hj] at he; simp [← he, PyExn.isCaughtByWsLoop]
  unfold UserMessage.validate at h
  cases ht : validateTypeLiteral fields with
  | error e' => simp [ht] at h; exact h ▸ hlit e' ht
  | ok t =>
    cases hs : validateStr fields "session_id" with
    | error e' => simp [ht, hs] at h; exact h ▸ hval fields "session_id" e' hs
    | ok s =>
      cases hc : validateStr fields "content" with
      | error e' => simp [ht, hs, hc] at h; exact h ▸ hval fields "content" e' hc
      | ok c => simp [ht, hs, hc] at h

theorem validate_session_id_field (fields : List (String × Json)) (um : UserMessage)
    (h : UserMessage.validate fields = .ok um) :
    jsonGet fields "session_id" = some (.str um.session_id) := by
  unfold UserMessage.validate at h
  cases ht : validateTypeLiteral fields with
  | error e => simp [ht] at h
  | ok t =>
    cases hs : validateStr fields "session_id" with
    | error e => simp [ht, hs] at h
    | ok s =>
      cases hc : validateStr fields "content" with
      | error e => simp [ht, hs, hc] at h
      | ok c =>
        simp [ht, hs, hc] at h
        unfold validateStr at hs
        cases hj : jsonGet fields "session_id" with
        | none => simp [hj] at hs
        | some v =>
          cases v with
          | str s2 =>
            simp [hj] at hs
            rw [← h]
            simp [hs]
          | null => simp [hj] at hs
          | bool b => simp [hj] at hs
          | num n => simp [hj] at hs
          | arr xs => simp [hj] at hs
          | obj fs => simp [hj] at hs

/-- Every send_message call one loop iteration issues is routed either by the
connection session id (the error path) or by the session id the frame itself
carries (the assistant path). Shared workhorse lemma for the isolation
theorems. -/
theorem ws_step_routing {H : Type}
    (model_dump_json : WsMessage → Except PyExn String)
    (send_text : H → String → Except PyExn Unit)
    (agent_run : String → Except PyExn String)
    (session_id : String) (st : ServerState H) (parsed : Except String Json)
    (st' : ServerState H) (recs : List (SendRecord H))
    (h : ws_step model_dump_json send_text agent_run session_id st parsed
        = .ok (st', recs)) :
    ∀ rec ∈ recs, rec.routing_key = session_id ∨
      payloadSessionId parsed = some rec.routing_key := by
  unfold ws_step at h
  cases hdec : receiveDecode parsed with
  | ok user_message =>
    rw [hdec] at h
    simp only [ws_handle] at h
    have hmsg : user_message.type = "message" := by
      unfold receiveDecode at hdec
      cases parsed with
      | error msg => simp at hdec
      | ok j =>
        cases j with
        | obj fields => exact validate_type_is_message fields user_message hdec
        | null => simp at hdec
        | bool b => simp at hdec
        | num n => simp at hdec
        | str s => simp at hdec
        | arr xs => simp at hdec
    rw [if_pos hmsg] at h
    obtain ⟨act, hact, -, -⟩ := send_message_spec st.connection_manager
      model_dump_json send_text user_message.session_id
      (WsMessage.assistantMessage user_message.session_id
        (st.chat_service.process agent_run user_message.session_id
          user_message.content).output false)
    rw [hact] at h
    simp at h
    intro rec hrec
    rw [← h.2] at hrec
    simp at hrec
    right
    rw [hrec]
    unfold receiveDecode at hdec
    cases parsed with
    | error msg => simp at hdec
    | ok j =>
      cases j with
      | obj fields =>
        simp at hdec
        unfold payloadSessionId
        simp [validate_session_id_field fields user_message hdec]
      | null => simp at hdec
      | bool b => simp at hdec
      | num n => simp at hdec
      | str s => simp at hdec
      | arr xs => simp at hdec
  | error e =>
    rw [hdec] at h
    simp only [ws_handle] at h
    by_cases hc : e.isCaughtByWsLoop
    · rw [if_pos hc] at h
      obtain ⟨act, hact, -, -⟩ := send_message_spec st.connection_manager
        model_dump_json send_text session_id
        (WsMessage.errorMessage session_id ("Invalid message format: " ++ e.text))
      rw [hact] at h
      simp at h
      intro rec hrec
      rw [← h.2] at hrec
      simp at hrec
      left
      rw [hrec]
    · rw [if_neg hc] at h
      simp at h

theorem emitCaught_ok (attempt : Except PyExn Unit) :
    ∃ r, emitCaught attempt = .ok r := by
  cases attempt with
  | ok u => exact ⟨.emitted, rfl⟩
  | error e => exact ⟨.loggedWarning e, rfl⟩

/-
Shared facts about one loop iteration, used by the claim theorems below.
-/

theorem receiveDecode_type (parsed : Except String Json) (um : UserMessage)
    (h : receiveDecode parsed = .ok um) : um.type = "message" := by
  unfold receiveDecode at h
  cases parsed with
  | error msg => simp at h
  | ok j =>
    cases j with
    | obj fields => exact validate_type_is_message fields um h
    | null => simp at h
    | bool b => simp at h
    | num n => simp at h
    | str s => simp at h
    | arr xs => simp at h

/-- A frame that decodes to a valid UserMessage: the loop runs the chat
service on the frame's own session id and issues exactly one send_message,
routed by that id, carrying the assistant envelope. -/
theorem ws_step_valid {H : Type}
    (model_dump_json : WsMessage → Except PyExn String)
    (send_text : H → String → Except PyExn Unit)
    (agent_run : String → Except PyExn String)
    (session_id : String) (st : ServerState H)
    (parsed : Except String Json) (um : UserMessage)
    (hdec : receiveDecode parsed = .ok um) :
    ∃ act, ws_step model_dump_json send_text agent_run session_id st parsed =
        .ok (⟨st.connection_manager,
            (st.chat_service.process agent_run um.session_id um.content).service⟩,
          [⟨um.session_id, WsMessage.assistantMessage um.session_id
            (st.chat_service.process agent_run um.session_id um.content).output false,
            act⟩]) ∧
      (∀ hh, act.target = some hh →
        st.connection_manager.active_connections.lookup um.session_id = some hh) := by
  unfold ws_step
  rw [hdec]
  simp only [ws_handle]
  rw [if_pos (receiveDecode_type parsed um hdec)]
  obtain ⟨act, hact, -, htgt⟩ := send_message_spec st.connection_manager
    model_dump_json send_text um.session_id
    (WsMessage.assistantMessage um.session_id
      (st.chat_service.process agent_run um.session_id um.content).output false)
  rw [hact]
  exact ⟨act, rfl, htgt⟩

/-- A frame whose decode raises one of the two caught exception classes: the
loop issues exactly one send_message, routed by the connection's own session
id, carrying the ErrorMessage envelope, and the state is unchanged. -/
theorem ws_step_caught_error {H : Type}
    (model_dump_json : WsMessage → Except PyExn String)
    (send_text : H → String → Except PyExn Unit)
    (agent_run : String → Except PyExn String)
    (session_id : String) (st : ServerState H)
    (parsed : Except String Json) (e : PyExn)
    (hdec : receiveDecode parsed = .error e)
    (hcaught : e.isCaughtByWsLoop = true) :
    ∃ act, ws_step model_dump_json send_text agent_run session_id st parsed =
        .ok (st, [⟨session_id,
          WsMessage.errorMessage session_id ("Invalid message format: " ++ e.text),
          act⟩]) ∧
      (∀ hh, act.target = some hh →
        st.connection_manager.active_connections.lookup session_id = some hh) := by
  unfold ws_step
  rw [hdec]
  simp only [ws_handle]
  rw [if_pos hcaught]
  obtain ⟨act, hact, -, htgt⟩ := send_message_spec st.connection_manager
    model_dump_json send_text session_id
    (WsMessage.errorMessage session_id ("Invalid message format: " ++ e.text))
  rw [hact]
  exact ⟨act, rfl, htgt⟩

theorem process_prompt (cs : ChatService) (agent_run : String → Except PyExn String)
    (session_id message : String) :
    (cs.process agent_run session_id message).prompt =
      String.intercalate "\n" (cs.history session_id ++ ["User: " ++ message]) ++
        "\nAssistant:" := rfl

theorem process_history (cs : ChatService) (agent_run : String → Except PyExn String)
    (session_id message : String) :
    (cs.process agent_run session_id message).service.history session_id =
      cs.history session_id ++
        ["User: " ++ message,
          "Assistant: " ++ (cs.process agent_run session_id message).output] := by
  unfold ChatService.process ChatService.history
  simp [lookup_dictInsert_self]

theorem process_output_error (cs : ChatService)
    (agent_run : String → Except PyExn String) (e : PyExn)
    (hfail : ∀ prompt, agent_run prompt = .error e) (session_id message : String) :
    (cs.process agent_run session_id message).output = "Error: " ++ e.text := by
  unfold ChatService.process
  simp [hfail]

theorem receiveDecode_payload (parsed : Except String Json) (um : UserMessage)
    (h : receiveDecode parsed = .ok um) :
    payloadSessionId parsed = some um.session_id := by
  unfold receiveDecode at h
  cases parsed with
  | error msg => simp at h
  | ok j =>
    cases j with
    | obj fields =>
      simp at h
      have hf : jsonGet fields "session_id" = some (.str um.session_id) :=
        validate_session_id_field fields um h
      show (match jsonGet fields "session_id" with
        | some (.str s) => some s
        | _ => none) = some um.session_id
      rw [hf]
    | null => simp at h
    | bool b => simp at h
    | num n => simp at h
    | str s => simp at h
    | arr xs => simp at h

/-
The claims.
-/

/-- C3: the claim says processing a valid user message emits an openai_call
telemetry envelope before the agent call and an openai_response envelope
after it. The code never invokes TelemetryEmitter: running the loop on the
frame of the repository's own integration test (type message, session_id
test-123, content Hello) issues exactly one send, the AssistantMessage, and
zero OpenAIEvent envelopes — the test expects three frames. -/
theorem C3_no_openai_telemetry :
    ws_step okDump okSend okAgent "test-123"
        ⟨⟨[("test-123", 1)]⟩, ⟨[]⟩⟩
        (.ok (.obj [("type", .str "message"), ("session_id", .str "test-123"),
          ("content", .str "Hello")])) =
      .ok (⟨⟨[("test-123", 1)]⟩, ⟨[("test-123", ["User: Hello", "Assistant: ack"])]⟩⟩,
        [⟨"test-123", WsMessage.assistantMessage "test-123" "ack" false,
          .sent 1 "serialized"⟩]) ∧
    ([⟨"test-123", WsMessage.assistantMessage "test-123" "ack" false,
        .sent 1 "serialized"⟩] : List (SendRecord Nat)).countP
      (fun rec => rec.envelope.isOpenAIEvent) = 0 :=
  ⟨rfl, rfl⟩

/-- C4: send_message never raises to its caller: with no handle registered it
warns and returns, and with a handle registered any exception from
serialization or from the transport write is caught and recorded, never
propagated — for every behaviour of the serializer and the transport. -/
theorem C4_send_message_never_raises {H : Type} (m : ConnectionManager H)
    (model_dump_json : WsMessage → Except PyExn String)
    (send_text : H → String → Except PyExn Unit)
    (session_id : String) (message : WsMessage) :
    ∃ act, m.send_message model_dump_json send_text session_id message = .ok act ∧
      (act = .warnedNoConnection ↔
        m.active_connections.lookup session_id = none) ∧
      (∀ websocket e, m.active_connections.lookup session_id = some websocket →
        model_dump_json message = .error e → act = .serializeFailed e) ∧
      (∀ websocket s e, m.active_connections.lookup session_id = some websocket →
        model_dump_json message = .ok s → send_text websocket s = .error e →
        act = .writeFailed websocket s e) := by
  unfold ConnectionManager.send_message
  cases hl : m.active_connections.lookup session_id with
  | none =>
    refine ⟨.warnedNoConnection, rfl, by simp, ?_, ?_⟩
    · intro w e hw
      simp at hw
    · intro w s e hw
      simp at hw
  | some websocket =>
    cases hd : model_dump_json message with
    | error e0 =>
      refine ⟨.serializeFailed e0, rfl, by simp, ?_, ?_⟩
      · intro w e hw he
        have := (Except.error.inj he)
        rw [this]
      · intro w s e hw hs
        simp at hs
    | ok s0 =>
      cases hs : send_text websocket s0 with
      | ok u =>
        refine ⟨.sent websocket s0, by simp [hs], by simp, ?_, ?_⟩
        · intro w e hw he
          simp at he
        · intro w s e hw hok hse
          have hsw : websocket = w := Option.some.inj hw
          have hss : s0 = s := Except.ok.inj hok
          rw [← hsw, ← hss] at hse
          rw [hs] at hse
          simp at hse
      | error e0 =>
        refine ⟨.writeFailed websocket s0 e0, by simp [hs], by simp, ?_, ?_⟩
        · intro w e hw he
          simp at he
        · intro w s e hw hok hse
          have hsw : websocket = w := Option.some.inj hw
          have hss : s0 = s := Except.ok.inj hok
          rw [← hsw, ← hss] at hse
          rw [hs] at hse
          have := Except.error.inj hse
          rw [hsw, hss, ← this]

/-- C5: process appends the User turn, builds the prompt as the transcript
joined by newline followed by the Assistant cue, and appends the Assistant
turn; hence the second of two sequential messages on one session sees both
prior turns, in order, each role-prefixed. -/
theorem C5_transcript_accumulation (cs : ChatService)
    (agent_run : String → Except PyExn String) (session_id m1 m2 : String) :
    (cs.process agent_run session_id m1).prompt =
      String.intercalate "\n" (cs.history session_id ++ ["User: " ++ m1]) ++
        "\nAssistant:" ∧
    ((cs.process agent_run session_id m1).service.process agent_run
        session_id m2).prompt =
      String.intercalate "\n" (cs.history session_id ++
        ["User: " ++ m1,
          "Assistant: " ++ (cs.process agent_run session_id m1).output,
          "User: " ++ m2]) ++ "\nAssistant:" ∧
    ((cs.process agent_run session_id m1).service.process agent_run
        session_id m2).service.history session_id =
      cs.history session_id ++
        ["User: " ++ m1,
          "Assistant: " ++ (cs.process agent_run session_id m1).output,
          "User: " ++ m2,
          "Assistant: " ++ ((cs.process agent_run session_id m1).service.process
            agent_run session_id m2).output] := by
  refine ⟨process_prompt cs agent_run session_id m1, ?_, ?_⟩
  · rw [process_prompt, process_history]
    simp
  · rw [process_history, process_history]
    simp

/-- C7: connecting twice under one session id leaves exactly one entry for
it, holding the newest handle; the registry keys stay duplicate-free; and
any write a subsequent send_message for that id attempts reaches only the
newest handle. -/
theorem C7_registry_overwrite {H : Type} (m : ConnectionManager H)
    (h1 h2 : H) (session_id : String) :
    ((m.connect h1 session_id).connect h2 session_id).active_connections.lookup
        session_id = some h2 ∧
    (keysNodup m.active_connections →
      keysNodup ((m.connect h1 session_id).connect h2
        session_id).active_connections) ∧
    (keysNodup m.active_connections →
      keyCount ((m.connect h1 session_id).connect h2
        session_id).active_connections session_id = 1) ∧
    (∀ model_dump_json send_text message act h,
      ((m.connect h1 session_id).connect h2 session_id).send_message
          model_dump_json send_text session_id message = .ok act →
      act.target = some h → h = h2) := by
  have hlk : ((m.connect h1 session_id).connect h2
      session_id).active_connections.lookup session_id = some h2 :=
    lookup_dictInsert_self _ _ _
  refine ⟨hlk, ?_, ?_, ?_⟩
  · intro hnd
    exact keysNodup_dictInsert _ _ _ (keysNodup_dictInsert _ _ _ hnd)
  · intro hnd
    exact keyCount_dictInsert_self _ _ _ (keysNodup_dictInsert _ _ _ hnd)
  · intro model_dump_json send_text message act h hsend htgt
    obtain ⟨act2, hact2, -, htgt2⟩ := send_message_spec
      ((m.connect h1 session_id).connect h2 session_id)
      model_dump_json send_text session_id message
    rw [hact2] at hsend
    have hae : act2 = act := Except.ok.inj hsend
    rw [hae] at htgt2
    have := htgt2 h htgt
    rw [hlk] at this
    exact (Option.some.inj this).symm

/-- C8: the three telemetry emit helpers return normally for every behaviour
of the registry send (including one that raises on every call) and of the
timestamp source (event construction failure): the exception is caught and
logged, never propagated. -/
theorem C8_emitters_best_effort
    (send_message : String → WsMessage → Except PyExn Unit)
    (now : Except PyExn Int)
    (session_id tool_call_id tool_name result event_type model : String)
    (arguments : List (String × Json)) (duration_ms : Int)
    (prompt_tokens completion_tokens total_tokens dur : Option Int) :
    (∃ r, TelemetryEmitter.emit_tool_call send_message now session_id
      tool_call_id tool_name arguments = .ok r) ∧
    (∃ r, TelemetryEmitter.emit_tool_result send_message now session_id
      tool_call_id tool_name result duration_ms = .ok r) ∧
    (∃ r, TelemetryEmitter.emit_openai_call send_message now session_id
      event_type model prompt_tokens completion_tokens total_tokens dur
        = .ok r) := by
  refine ⟨?_, ?_, ?_⟩
  · unfold TelemetryEmitter.emit_tool_call
    exact emitCaught_ok _
  · unfold TelemetryEmitter.emit_tool_result
    exact emitCaught_ok _
  · unfold TelemetryEmitter.emit_openai_call
    exact emitCaught_ok _

/-- C9: query_traces_by_session returns the empty list, raising nothing, when
the backend times out, errors at the HTTP level, fails otherwise, or returns
no data; the telemetry endpoint answers with trace_count equal to the number
of distinct trace ids among the returned spans (zero for the empty list),
and its 500 branch fires exactly when the awaited query raises — so composed
with the never-raising query it always answers 200. -/
theorem C9_trace_query_resilience (session_id : String) :
    query_traces_by_session .timeoutException session_id = [] ∧
    (∀ msg, query_traces_by_session (.httpError msg) session_id = []) ∧
    (∀ msg, query_traces_by_session (.otherFailure msg) session_id = []) ∧
    query_traces_by_session (.ok2xx (.obj [("data", .arr [])])) session_id = [] ∧
    query_traces_by_session (.ok2xx (.obj [])) session_id = [] ∧
    (∀ spans, get_telemetry (.ok spans) session_id =
      .ok ⟨session_id, spans, (spans.map (fun s => s.trace_id)).toFinset.card⟩) ∧
    (∀ e, get_telemetry (.error e) session_id =
      .httpException 500 "Failed to retrieve telemetry data") ∧
    (∀ backend, ∃ resp,
      get_telemetry (.ok (query_traces_by_session backend session_id))
        session_id = .ok resp) := by
  refine ⟨rfl, fun msg => rfl, fun msg => rfl, rfl, rfl, ?_, fun e => rfl, ?_⟩
  · intro spans
    unfold get_telemetry
    rw [List.card_toFinset]
  · intro backend
    exact ⟨_, rfl⟩

/-- C10: a websocket connection opened without a session_id query parameter
is registered under the literal id default; a second parameter-less
connection overwrites that registration, and process calls keyed by the
default id append to a single shared transcript. -/
theorem C10_default_session_id :
    ws_chat_session_id none = "default" ∧
    (∀ (H : Type) (m : ConnectionManager H) (h1 h2 : H),
      ((m.connect h1 (ws_chat_session_id none)).connect h2
        (ws_chat_session_id none)).active_connections.lookup "default"
          = some h2) ∧
    (∀ (cs : ChatService) (agent_run : String → Except PyExn String)
        (m1 m2 : String),
      ((cs.process agent_run (ws_chat_session_id none) m1).service.process
          agent_run (ws_chat_session_id none) m2).service.history "default" =
        cs.history "default" ++
          ["User: " ++ m1,
            "Assistant: " ++ (cs.process agent_run "default" m1).output,
            "User: " ++ m2,
            "Assistant: " ++ ((cs.process agent_run "default" m1).service.process
              agent_run "default" m2).output]) := by
  refine ⟨rfl, ?_, ?_⟩
  · intro H m h1 h2
    exact lookup_dictInsert_self _ _ _
  · intro cs agent_run m1 m2
    show ((cs.process agent_run "default" m1).service.process
        agent_run "default" m2).service.history "default" = _
    rw [process_history, process_history]
    simp

/-- C1 (amended): send_message keyed a never writes to the handle of a
different session b, and a frame delivered on the connection whose own id is
a causes writes only through the routing keys the loop uses — the frame's
own payload session id (assistant path) or a (error path) — so no envelope
reaches the handle of b as long as the frame's payload session id is not b.
The unamended claim fails because the loop routes by the payload id, not the
connection's: see the counterexample. -/
theorem C1_session_isolation {H : Type}
    (m : ConnectionManager H) (cs : ChatService) (a b : String) (hb : H)
    (hab : a ≠ b)
    (honly : ∀ k h, m.active_connections.lookup k = some h → h = hb → k = b)
    (model_dump_json : WsMessage → Except PyExn String)
    (send_text : H → String → Except PyExn Unit)
    (agent_run : String → Except PyExn String)
    (parsed : Except String Json)
    (hpayload : payloadSessionId parsed ≠ some b)
    (st' : ServerState H) (recs : List (SendRecord H))
    (hstep : ws_step model_dump_json send_text agent_run a ⟨m, cs⟩ parsed
        = .ok (st', recs)) :
    (∀ message act,
      m.send_message model_dump_json send_text a message = .ok act →
        act.target ≠ some hb) ∧
    (∀ rec ∈ recs, rec.action.target ≠ some hb) := by
  constructor
  · intro message act hsend htb
    obtain ⟨act2, hact2, -, htgt⟩ := send_message_spec m model_dump_json
      send_text a message
    rw [hact2] at hsend
    have hae : act2 = act := Except.ok.inj hsend
    rw [hae] at htgt
    exact hab (honly a hb (htgt hb htb) rfl)
  · intro rec hrec htb
    cases hdec : receiveDecode parsed with
    | ok um =>
      obtain ⟨act, hws, htgt⟩ := ws_step_valid model_dump_json send_text
        agent_run a ⟨m, cs⟩ parsed um hdec
      rw [hws] at hstep
      have hp := Except.ok.inj hstep
      rw [Prod.ext_iff] at hp
      have hrecs := hp.2
      simp at hrecs
      rw [← hrecs] at hrec
      simp at hrec
      rw [hrec] at htb
      have hlk := htgt hb htb
      have hkb : um.session_id = b := honly um.session_id hb hlk rfl
      have hpay := receiveDecode_payload parsed um hdec
      rw [hkb] at hpay
      exact hpayload hpay
    | error e =>
      by_cases hc : e.isCaughtByWsLoop = true
      · obtain ⟨act, hws, htgt⟩ := ws_step_caught_error model_dump_json
          send_text agent_run a ⟨m, cs⟩ parsed e hdec hc
        rw [hws] at hstep
        have hp := Except.ok.inj hstep
        rw [Prod.ext_iff] at hp
        have hrecs := hp.2
        simp at hrecs
        rw [← hrecs] at hrec
        simp at hrec
        rw [hrec] at htb
        have hlk := htgt hb htb
        exact hab (honly a hb hlk rfl)
      · unfold ws_step at hstep
        rw [hdec] at hstep
        simp only [ws_handle] at hstep
        rw [if_neg hc] at hstep
        simp at hstep

/-- C1 counterexample: with handle 1 registered under session id a and
handle 2 under session id b, the user-message frame delivered on the
connection whose own id is a but carrying payload session_id b makes the
loop write the assistant envelope to handle 2, the handle of session b —
refuting the claim that a frame on the connection of a never causes a write
to the handle of b. -/
theorem C1_counterexample :
    (⟨[("a", 1), ("b", 2)]⟩ : ConnectionManager Nat).active_connections.lookup "a"
      = some 1 ∧
    (⟨[("a", 1), ("b", 2)]⟩ : ConnectionManager Nat).active_connections.lookup "b"
      = some 2 ∧
    ws_step okDump okSend okAgent "a" ⟨⟨[("a", 1), ("b", 2)]⟩, ⟨[]⟩⟩
        (.ok (.obj [("type", .str "message"), ("session_id", .str "b"),
          ("content", .str "hi")])) =
      .ok (⟨⟨[("a", 1), ("b", 2)]⟩, ⟨[("b", ["User: hi", "Assistant: ack"])]⟩⟩,
        [⟨"b", WsMessage.assistantMessage "b" "ack" false, .sent 2 "serialized"⟩]) ∧
    (SendAction.sent 2 "serialized" : SendAction Nat).target = some 2 :=
  ⟨rfl, rfl, rfl, rfl⟩

/-- C1 witness: the amended isolation theorem applied at a concrete registry
holding handles 1 and 2 under ids a and b, and a frame on the connection of
a whose payload session id is a. -/
theorem C1_witness :
    (∀ message act,
      (⟨[("a", 1), ("b", 2)]⟩ : ConnectionManager Nat).send_message okDump
          okSend "a" message = .ok act →
        act.target ≠ some 2) ∧
    (∀ rec ∈ ([⟨"a", WsMessage.assistantMessage "a" "ack" false,
        .sent 1 "serialized"⟩] : List (SendRecord Nat)),
      rec.action.target ≠ some 2) :=
  C1_session_isolation ⟨[("a", 1), ("b", 2)]⟩ ⟨[]⟩ "a" "b" 2
    (by decide)
    (by
      intro k h hlk h2
      rw [h2] at hlk
      by_cases hka : k = "a"
      · rw [hka] at hlk
        simp [List.lookup] at hlk
      · by_cases hkb : k = "b"
        · exact hkb
        · have hf1 : (k == "a") = false := beq_eq_false_iff_ne.mpr hka
          have hf2 : (k == "b") = false := beq_eq_false_iff_ne.mpr hkb
          simp [List.lookup, hf1, hf2] at hlk)
    okDump okSend okAgent
    (.ok (.obj [("type", .str "message"), ("session_id", .str "a"),
      ("content", .str "hi")]))
    (by decide)
    ⟨⟨[("a", 1), ("b", 2)]⟩, ⟨[("a", ["User: hi", "Assistant: ack"])]⟩⟩
    [⟨"a", WsMessage.assistantMessage "a" "ack" false, .sent 1 "serialized"⟩]
    rfl

/-- C2 (amended): an inbound frame that is invalid JSON, or valid JSON whose
value is an object not matching the UserMessage shape, makes the loop send
exactly one ErrorMessage envelope keyed and stamped with the connection's
own session id, leaving the state unchanged and the loop reading. The
unamended claim fails for frames of valid JSON whose value is not an object:
unpacking them with ** raises a TypeError the loop does not catch — see the
counterexample. -/
theorem C2_malformed_frame {H : Type}
    (model_dump_json : WsMessage → Except PyExn String)
    (send_text : H → String → Except PyExn Unit)
    (agent_run : String → Except PyExn String)
    (session_id : String) (st : ServerState H) (parsed : Except String Json)
    (hbad : (∃ msg, parsed = .error msg) ∨
      (∃ fields e, parsed = .ok (.obj fields) ∧
        UserMessage.validate fields = .error e)) :
    ∃ e act, receiveDecode parsed = .error e ∧ e.isCaughtByWsLoop = true ∧
      ws_step model_dump_json send_text agent_run session_id st parsed =
        .ok (st, [⟨session_id,
          WsMessage.errorMessage session_id
            ("Invalid message format: " ++ e.text), act⟩]) := by
  rcases hbad with ⟨msg, rfl⟩ | ⟨fields, e, rfl, hval⟩
  · have hdec : receiveDecode (.error msg) = .error (.jsonDecodeError msg) := rfl
    obtain ⟨act, hws, -⟩ := ws_step_caught_error model_dump_json send_text
      agent_run session_id st (.error msg) (.jsonDecodeError msg) hdec rfl
    exact ⟨.jsonDecodeError msg, act, hdec, rfl, hws⟩
  · have hdec : receiveDecode (.ok (.obj fields)) = .error e := hval
    have hcaught := validate_errors_caught fields e hval
    obtain ⟨act, hws, -⟩ := ws_step_caught_error model_dump_json send_text
      agent_run session_id st (.ok (.obj fields)) e hdec hcaught
    exact ⟨e, act, hdec, hcaught, hws⟩

/-- C2 counterexample: the frame whose text is the valid JSON list [1, 2] is
not a valid UserMessage, yet the loop body raises an uncaught TypeError and
sends no ErrorMessage — the claim promised exactly one ErrorMessage and a
connection left open. -/
theorem C2_counterexample :
    ws_step okDump okSend okAgent "s" ⟨⟨[("s", 1)]⟩, ⟨[]⟩⟩
        (.ok (.arr [.num 1, .num 2])) =
      .error (.typeError "argument after ** must be a mapping") :=
  rfl

/-- C2 witness: the amended theorem applied to a frame that fails JSON
parsing on a connection with session id s. -/
theorem C2_witness :
    ∃ e act,
      receiveDecode (.error "Expecting value: line 1 column 1 (char 0)")
        = .error e ∧ e.isCaughtByWsLoop = true ∧
      ws_step okDump okSend okAgent "s" (⟨⟨[("s", 1)]⟩, ⟨[]⟩⟩ : ServerState Nat)
          (.error "Expecting value: line 1 column 1 (char 0)") =
        .ok (⟨⟨[("s", 1)]⟩, ⟨[]⟩⟩, [⟨"s",
          WsMessage.errorMessage "s" ("Invalid message format: " ++ e.text),
          act⟩]) :=
  C2_malformed_frame okDump okSend okAgent "s" ⟨⟨[("s", 1)]⟩, ⟨[]⟩⟩
    (.error "Expecting value: line 1 column 1 (char 0)")
    (Or.inl ⟨"Expecting value: line 1 column 1 (char 0)", rfl⟩)

/-- C6: when every agent invocation raises, process returns the literal
output Error colon followed by the exception text, appends it to the
transcript as the assistant turn, and the loop still answers the client with
a well-formed AssistantMessage carrying that text — no exception escapes. -/
theorem C6_agent_failure_folded {H : Type}
    (model_dump_json : WsMessage → Except PyExn String)
    (send_text : H → String → Except PyExn Unit)
    (agent_run : String → Except PyExn String) (e : PyExn)
    (hfail : ∀ prompt, agent_run prompt = .error e)
    (cs : ChatService) (session_id message : String)
    (st : ServerState H) (parsed : Except String Json) (um : UserMessage)
    (hdec : receiveDecode parsed = .ok um) :
    (cs.process agent_run session_id message).output = "Error: " ++ e.text ∧
    (cs.process agent_run session_id message).service.history session_id =
      cs.history session_id ++
        ["User: " ++ message, "Assistant: " ++ ("Error: " ++ e.text)] ∧
    ∃ act, ws_step model_dump_json send_text agent_run session_id st parsed =
      .ok (⟨st.connection_manager,
          (st.chat_service.process agent_run um.session_id um.content).service⟩,
        [⟨um.session_id,
          WsMessage.assistantMessage um.session_id ("Error: " ++ e.text) false,
          act⟩]) := by
  refine ⟨process_output_error cs agent_run e hfail session_id message, ?_, ?_⟩
  · rw [process_history, process_output_error cs agent_run e hfail]
  · obtain ⟨act, hws, -⟩ := ws_step_valid model_dump_json send_text agent_run
      session_id st parsed um hdec
    refine ⟨act, ?_⟩
    rw [hws, process_output_error st.chat_service agent_run e hfail]

/-- C6 witness: the folded-failure theorem applied to an agent that always
raises a RuntimeError reading boom, on a valid frame for session s. -/
theorem C6_witness :
    ((⟨[]⟩ : ChatService).process failAgent "s" "hi").output
      = "Error: " ++ "boom" ∧
    ((⟨[]⟩ : ChatService).process failAgent "s" "hi").service.history "s" =
      (⟨[]⟩ : ChatService).history "s" ++
        ["User: " ++ "hi", "Assistant: " ++ ("Error: " ++ "boom")] ∧
    ∃ act, ws_step okDump okSend failAgent "s"
        (⟨⟨[("s", 1)]⟩, ⟨[]⟩⟩ : ServerState Nat)
        (.ok (.obj [("type", .str "message"), ("session_id", .str "s"),
          ("content", .str "hi")])) =
      .ok (⟨⟨[("s", 1)]⟩,
          ⟨[("s", ["User: hi", "Assistant: " ++ ("Error: " ++ "boom")])]⟩⟩,
        [⟨"s", WsMessage.assistantMessage "s" ("Error: " ++ "boom") false,
          act⟩]) :=
  C6_agent_failure_folded okDump okSend failAgent (.runtimeError "boom")
    (fun _ => rfl) ⟨[]⟩ "s" "hi" ⟨⟨[("s", 1)]⟩, ⟨[]⟩⟩
    (.ok (.obj [("type", .str "message"), ("session_id", .str "s"),
      ("content", .str "hi")])) ⟨"message", "s", "hi"⟩ rfl

end FhirsideChat

